import Mathlib

/-!
Verification of the SKL v1.4 pre-push enforcement hook
(`.githooks/pre-push.py`): a shallow embedding of its policy-evaluation
core — tree diffing (mechanical-only detection), signature extraction,
pattern scanning, the queue/acceptance/scope-pause gates, scope
validation, the dependency validator and proposal construction — together
with theorems settling the specification's claims about them.

Conventions of the embedding:
* Python strings are `String`; character-level operations
  (`startswith`, `endswith`, `split`, `rstrip`) are re-implemented over
  `String.data` so that concrete instances reduce inside the kernel.
* Parsed JSON documents are values of the inductive type `J`; dictionary
  access `d.get(key)` is `J.get` (later duplicate keys win, as in
  `json.load`).  Python `==` between JSON values is `J.beq`; numeric
  cross-type coercion (`1 == True`) is not modelled, no claim exercises it.
* Python source units appear as their parse results:
  `PySrc := Option PyModule`, `none` standing for a `SyntaxError`.  A
  base version that does not exist (new file) is the outer `none` of an
  `Option PySrc`.
* Wall-clock behaviour (the 500 ms tree-diff timeout, which only forces
  the mechanical flag to `false`) and `datetime` parsing are abstracted:
  the scope-pause gate takes the ISO-8601 parser and the current instant
  as parameters.
-/

/-! ### Character-level string helpers (Python `str` methods) -/

/-- `listIsPrefix pat l` — is `pat` a prefix of `l` (character lists). -/
def listIsPrefix : List Char → List Char → Bool
  | [], _ => true
  | _ :: _, [] => false
  | p :: ps, c :: cs => p == c && listIsPrefix ps cs

/-- Python `s.startswith(pat)`. -/
def strStartsWith (s pat : String) : Bool :=
  listIsPrefix pat.data s.data

/-- Python `s.endswith(pat)`. -/
def strEndsWith (s pat : String) : Bool :=
  listIsPrefix pat.data.reverse s.data.reverse

/-- Python `s.rstrip("/")` — drop every trailing `'/'`. -/
def dropSlashesRight (s : String) : String :=
  String.mk ((s.data.reverse.dropWhile (fun c => c == '/')).reverse)

/-- Auxiliary for `strSplitSlash`: accumulate the current component. -/
def splitSlashAux : List Char → List Char → List String
  | [], acc => [String.mk acc.reverse]
  | c :: rest, acc =>
    if c == '/' then String.mk acc.reverse :: splitSlashAux rest []
    else splitSlashAux rest (c :: acc)

/-- Python `s.split("/")` (keeps empty components, like `str.split`). -/
def strSplitSlash (s : String) : List String :=
  splitSlashAux s.data []

/-- Python `"/".join(parts)`. -/
def joinSlash : List String → String
  | [] => ""
  | [x] => x
  | x :: rest => x ++ "/" ++ joinSlash rest

/-! ### `os.path.normpath` (POSIX semantics), used by `_normalize_path` -/

/-- One step of `posixpath.normpath`'s component loop.  `isAbs` records
whether the path had leading slashes. -/
def normStep (isAbs : Bool) (acc : List String) (comp : String) : List String :=
  if comp == "" || comp == "." then acc
  else if comp != ".." then acc ++ [comp]
  else if (!isAbs && acc.isEmpty) || (!acc.isEmpty && acc.getLast? == some "..") then
    acc ++ [comp]
  else if !acc.isEmpty then acc.dropLast
  else acc

/-- `_normalize_path` from the hook: `os.path.normpath` on POSIX. -/
def normpath (p : String) : String :=
  if p == "" then "."
  else
    let islashes : Nat :=
      if strStartsWith p "/" then
        (if strStartsWith p "//" && !(strStartsWith p "///") then 2 else 1)
      else 0
    let comps := strSplitSlash p
    let newComps := comps.foldl (normStep (islashes > 0)) []
    let joined := String.mk (List.replicate islashes '/') ++ joinSlash newComps
    if joined == "" then "." else joined

example : normpath "" = "." := by decide
example : normpath "./app/util.py" = "app/util.py" := by decide
example : normpath "app//util.py" = "app/util.py" := by decide
example : normpath "a/b/../c" = "a/c" := by decide
example : normpath "/a//b/" = "/a/b" := by decide
example : normpath "apple/main.py" = "apple/main.py" := by decide

/-! ### The governed language's syntax trees (the `ast` fragment the hook
reads: module statement lists, definitions with argument structure,
expressions carrying identifier references and constants).  `PySrc` is a
parse result: `none` models a `SyntaxError` from `_safe_parse`. -/

inductive PyExpr where
  | constant (value : String)
  | name (id : String)
  | attribute (value : PyExpr) (attr : String)
  | call (func : PyExpr) (args : List PyExpr)
  | node (kind : String) (children : List PyExpr)

/-- `ast.arg`: a parameter name with an optional annotation expression. -/
structure PyArg where
  name : String
  annotation : Option PyExpr

/-- `ast.arguments` — the fields `_signature_key` reads, plus
positional-only parameters (present in the tree, ignored by the key). -/
structure PyArgs where
  posonlyargs : List PyArg
  args : List PyArg
  vararg : Option PyArg
  kwonlyargs : List PyArg
  kw_defaults : List (Option PyExpr)
  kwarg : Option PyArg
  defaults : List PyExpr

inductive PyStmt where
  | functionDef (name : String) (args : PyArgs) (body : List PyStmt)
      (decorator_list : List PyExpr)
  | asyncFunctionDef (name : String) (args : PyArgs) (body : List PyStmt)
      (decorator_list : List PyExpr)
  | classDef (name : String) (body : List PyStmt) (decorator_list : List PyExpr)
  | exprStmt (value : PyExpr)
  | passStmt
  | block (kind : String) (exprs : List PyExpr) (bodies : List (List PyStmt))

/-- A module is its statement list (`ast.Module.body`). -/
abbrev PyModule := List PyStmt

/-- A parsed source unit; `none` models a parse failure. -/
abbrev PySrc := Option PyModule

/-! Structural equality of trees, standing for equality of `ast.dump`
strings (`ast.dump` prints every modelled field, so dump equality is
structural equality). -/

mutual
def PyExpr.beq : PyExpr → PyExpr → Bool
  | .constant a, .constant b => a == b
  | .name a, .name b => a == b
  | .attribute v1 a1, .attribute v2 a2 => PyExpr.beq v1 v2 && a1 == a2
  | .call f1 as1, .call f2 as2 => PyExpr.beq f1 f2 && PyExpr.beqList as1 as2
  | .node k1 c1, .node k2 c2 => k1 == k2 && PyExpr.beqList c1 c2
  | _, _ => false
def PyExpr.beqList : List PyExpr → List PyExpr → Bool
  | [], [] => true
  | x :: xs, y :: ys => PyExpr.beq x y && PyExpr.beqList xs ys
  | _, _ => false
end

def PyExpr.beqOpt : Option PyExpr → Option PyExpr → Bool
  | none, none => true
  | some a, some b => PyExpr.beq a b
  | _, _ => false

def PyExpr.beqOptList : List (Option PyExpr) → List (Option PyExpr) → Bool
  | [], [] => true
  | x :: xs, y :: ys => PyExpr.beqOpt x y && PyExpr.beqOptList xs ys
  | _, _ => false

def PyArg.beq (a b : PyArg) : Bool :=
  a.name == b.name && PyExpr.beqOpt a.annotation b.annotation

def PyArg.beqList : List PyArg → List PyArg → Bool
  | [], [] => true
  | x :: xs, y :: ys => PyArg.beq x y && PyArg.beqList xs ys
  | _, _ => false

def PyArg.beqOpt : Option PyArg → Option PyArg → Bool
  | none, none => true
  | some a, some b => PyArg.beq a b
  | _, _ => false

def PyArgs.beq (a b : PyArgs) : Bool :=
  PyArg.beqList a.posonlyargs b.posonlyargs &&
  PyArg.beqList a.args b.args &&
  PyArg.beqOpt a.vararg b.vararg &&
  PyArg.beqList a.kwonlyargs b.kwonlyargs &&
  PyExpr.beqOptList a.kw_defaults b.kw_defaults &&
  PyArg.beqOpt a.kwarg b.kwarg &&
  PyExpr.beqList a.defaults b.defaults

mutual
def PyStmt.beq : PyStmt → PyStmt → Bool
  | .functionDef n1 a1 b1 d1, .functionDef n2 a2 b2 d2 =>
    n1 == n2 && PyArgs.beq a1 a2 && PyStmt.beqList b1 b2 && PyExpr.beqList d1 d2
  | .asyncFunctionDef n1 a1 b1 d1, .asyncFunctionDef n2 a2 b2 d2 =>
    n1 == n2 && PyArgs.beq a1 a2 && PyStmt.beqList b1 b2 && PyExpr.beqList d1 d2
  | .classDef n1 b1 d1, .classDef n2 b2 d2 =>
    n1 == n2 && PyStmt.beqList b1 b2 && PyExpr.beqList d1 d2
  | .exprStmt e1, .exprStmt e2 => PyExpr.beq e1 e2
  | .passStmt, .passStmt => true
  | .block k1 e1 bs1, .block k2 e2 bs2 =>
    k1 == k2 && PyExpr.beqList e1 e2 && PyStmt.beqListList bs1 bs2
  | _, _ => false
def PyStmt.beqList : List PyStmt → List PyStmt → Bool
  | [], [] => true
  | x :: xs, y :: ys => PyStmt.beq x y && PyStmt.beqList xs ys
  | _, _ => false
def PyStmt.beqListList : List (List PyStmt) → List (List PyStmt) → Bool
  | [], [] => true
  | x :: xs, y :: ys => PyStmt.beqList x y && PyStmt.beqListList xs ys
  | _, _ => false
end

/-! ### Tree Differ: `compute_mechanical_only` and `_strip_cosmetic` -/

/-- A statement `_strip_cosmetic` removes from statement lists: an
`ast.Pass`, or an `ast.Expr` whose value is an `ast.Constant`
(docstrings and other bare constant expressions). -/
def isCosmetic : PyStmt → Bool
  | .passStmt => true
  | .exprStmt (.constant _) => true
  | _ => false

mutual
/-- `_strip_cosmetic`, as the induced recursive filter: every statement
list in the tree loses its cosmetic members.  (Expression lists can
contain neither `Pass` nor `Expr` statements, so filtering them is the
identity.) -/
def stripStmt : PyStmt → PyStmt
  | .functionDef n a b d => .functionDef n a (stripStmts b) d
  | .asyncFunctionDef n a b d => .asyncFunctionDef n a (stripStmts b) d
  | .classDef n b d => .classDef n (stripStmts b) d
  | .exprStmt e => .exprStmt e
  | .passStmt => .passStmt
  | .block k es bs => .block k es (stripStmtss bs)
def stripStmts : List PyStmt → List PyStmt
  | [] => []
  | s :: rest =>
    if isCosmetic s then stripStmts rest else stripStmt s :: stripStmts rest
def stripStmtss : List (List PyStmt) → List (List PyStmt)
  | [] => []
  | l :: rest => stripStmts l :: stripStmtss rest
end

/-- `compute_mechanical_only`: a new file (absent base) is never
mechanical; a parse failure on either side is never mechanical;
otherwise the cosmetic-stripped trees are compared for structural
equality.  The 500 ms timeout path (which also answers `false`) is not
modelled. -/
def compute_mechanical_only (base_content : Option PySrc) (head_content : PySrc) : Bool :=
  match base_content with
  | none => false
  | some base_src =>
    match base_src, head_content with
    | some base_tree, some head_tree =>
      PyStmt.beqList (stripStmts base_tree) (stripStmts head_tree)
    | _, _ => false

/-! ### Signature Extractor -/

/-- Last-wins association lookup: Python dictionaries built by repeated
insertion keep the most recent value for a key. -/
def dictGet {α : Type} : List (String × α) → String → Option α
  | [], _ => none
  | (k, v) :: rest, key =>
    match dictGet rest key with
    | some r => some r
    | none => if k == key then some v else none

/-- Insertion-ordered key list of such a dictionary (first occurrence
keeps its position). -/
def dedupFirst (keys : List String) : List String :=
  keys.foldl (fun acc k => if acc.contains k then acc else acc ++ [k]) []

/-- Decimal representation of a natural number (Python `str(n)` /
`"%d"`), built from `Nat.digits` so that its round-trip with
`decodeDecimal` is provable. -/
def decRepr (n : Nat) : String :=
  if n = 0 then "0"
  else String.mk (((Nat.digits 10 n).map Nat.digitChar).reverse)

/-- `_extract_top_level_defs`: top-level function / async-function /
class definitions keyed by name, in order (the dict itself is
`dictGet`/`dedupFirst` over this list). -/
def extract_top_level_defs (tree : PyModule) : List (String × PyStmt) :=
  tree.filterMap (fun s =>
    match s with
    | .functionDef n _ _ _ => some (n, s)
    | .asyncFunctionDef n _ _ _ => some (n, s)
    | .classDef n _ _ => some (n, s)
    | _ => none)

/-- The callable part of `_signature_key`:
`(name, *arg_names, has_vararg, has_kwarg, n_defaults, *kw_only_names,
n_kw_defaults)`, flattened into a list of strings exactly as the Python
tuple flattens. -/
def sig_key_args (fname : String) (a : PyArgs) : List String :=
  [fname] ++ a.args.map PyArg.name ++
  [(if a.vararg.isSome then "*" else ""),
   (if a.kwarg.isSome then "**" else ""),
   decRepr a.defaults.length] ++
  a.kwonlyargs.map PyArg.name ++
  [decRepr (a.kw_defaults.countP Option.isSome)]

/-- `_signature_key`: functions use the full tuple; classes only their
name; anything else the empty tuple. -/
def signature_key : PyStmt → List String
  | .functionDef n a _ _ => sig_key_args n a
  | .asyncFunctionDef n a _ _ => sig_key_args n a
  | .classDef n _ _ => [n]
  | _ => []

/-- Python `set(keys1) == set(keys2)`. -/
def keySetEq (l1 l2 : List String) : Bool :=
  l1.all l2.contains && l2.all l1.contains

/-- The keys of the defs dictionary. -/
def defKeys (defs : List (String × PyStmt)) : List String :=
  dedupFirst (defs.map Prod.fst)

/-- The signature key of the definition stored under `n`, if any. -/
def sigOf (defs : List (String × PyStmt)) (n : String) : Option (List String) :=
  (dictGet defs n).map signature_key

/-- `compute_public_api_signature_changed`: `true` for a new file or a
parse failure on either side; otherwise `true` iff the top-level
definition name sets differ or some surviving name changed its
signature key. -/
def compute_public_api_signature_changed
    (base_content : Option PySrc) (head_content : PySrc) : Bool :=
  match base_content with
  | none => true
  | some base_src =>
    match base_src, head_content with
    | some base_tree, some head_tree =>
      let base_defs := extract_top_level_defs base_tree
      let head_defs := extract_top_level_defs head_tree
      if !(keySetEq (defKeys base_defs) (defKeys head_defs)) then true
      else (defKeys base_defs).any (fun n => sigOf base_defs n != sigOf head_defs n)
    | _, _ => true

/-! ### Pattern Scanner: `compute_auth_pattern_touched` -/

mutual
/-- The identifier references `ast.walk` collects: `Name.id`,
`Attribute.attr`, and the resolved callee name of a `Call` (whose
operands are then also walked). -/
def PyExpr.idents : PyExpr → List String
  | .constant _ => []
  | .name id => [id]
  | .attribute v a => a :: PyExpr.idents v
  | .call f args =>
    (match f with
     | .name s => [s]
     | .attribute _ a => [a]
     | _ => []) ++ PyExpr.idents f ++ PyExpr.identsList args
  | .node _ cs => PyExpr.identsList cs
def PyExpr.identsList : List PyExpr → List String
  | [] => []
  | e :: es => PyExpr.idents e ++ PyExpr.identsList es
end

def PyExpr.identsOpt : Option PyExpr → List String
  | none => []
  | some e => e.idents

def PyExpr.identsOptList : List (Option PyExpr) → List String
  | [] => []
  | e :: es => PyExpr.identsOpt e ++ PyExpr.identsOptList es

def PyArg.idents (a : PyArg) : List String :=
  PyExpr.identsOpt a.annotation

def PyArg.identsList : List PyArg → List String
  | [] => []
  | a :: rest => a.idents ++ PyArg.identsList rest

def PyArgs.idents (a : PyArgs) : List String :=
  PyArg.identsList a.posonlyargs ++ PyArg.identsList a.args ++
  (match a.vararg with | some v => v.idents | none => []) ++
  PyArg.identsList a.kwonlyargs ++ PyExpr.identsOptList a.kw_defaults ++
  (match a.kwarg with | some v => v.idents | none => []) ++
  PyExpr.identsList a.defaults

mutual
def PyStmt.idents : PyStmt → List String
  | .functionDef _ a b d => PyArgs.idents a ++ PyStmt.identsList b ++ PyExpr.identsList d
  | .asyncFunctionDef _ a b d => PyArgs.idents a ++ PyStmt.identsList b ++ PyExpr.identsList d
  | .classDef _ b d => PyStmt.identsList b ++ PyExpr.identsList d
  | .exprStmt e => e.idents
  | .passStmt => []
  | .block _ es bs => PyExpr.identsList es ++ PyStmt.identsListList bs
def PyStmt.identsList : List PyStmt → List String
  | [] => []
  | s :: rest => PyStmt.idents s ++ PyStmt.identsList rest
def PyStmt.identsListList : List (List PyStmt) → List String
  | [] => []
  | l :: rest => PyStmt.identsList l ++ PyStmt.identsListList rest
end

/-- `compute_auth_pattern_touched`: exact, case-sensitive match of any
collected identifier against any configured security pattern; `false`
on parse failure. -/
def compute_auth_pattern_touched (head_content : PySrc) (security_patterns : List String) : Bool :=
  match head_content with
  | none => false
  | some tree =>
    (PyStmt.identsList tree).any (fun ident => security_patterns.any (fun pat => ident == pat))

/-! ### State records, invariant coupling and fan-in -/

/-- A State ledger record, with the fields the hook reads
(`rec.get(key, default)` is embedded as a total field whose default is
the Python default). -/
structure StateRecord where
  path : String
  semantic_scope : String
  dependencies : List String
  invariants_touched : List String

/-- `HIGH_FAN_IN_THRESHOLD`. -/
def HIGH_FAN_IN_THRESHOLD : Nat := 3

/-- `compute_invariant_referenced_file_modified`: some record with
non-empty `invariants_touched` lists the (normalized) path among its
dependencies. -/
def compute_invariant_referenced_file_modified
    (modified_filepath : String) (state_records : List StateRecord) : Bool :=
  state_records.any (fun record =>
    !record.invariants_touched.isEmpty &&
    record.dependencies.any (fun dep => normpath dep == normpath modified_filepath))

/-- `compute_high_fan_in`: the path appears in the dependencies of at
least `HIGH_FAN_IN_THRESHOLD` records (each record counted once). -/
def compute_high_fan_in
    (modified_filepath : String) (state_records : List StateRecord) : Bool :=
  HIGH_FAN_IN_THRESHOLD ≤ state_records.countP (fun record =>
    record.dependencies.any (fun dep => normpath dep == normpath modified_filepath))

/-! ### Risk Signal Engine -/

/-- `derive_ast_change_type`: mechanical is checked first and wins. -/
def derive_ast_change_type (mechanical_only public_api_signature_changed : Bool) : String :=
  if mechanical_only then "mechanical"
  else if public_api_signature_changed then "structural"
  else "behavioral"

/-- The `risk_signals` record (the `RiskSignals` shape). -/
structure RiskSignals where
  touched_auth_or_permission_patterns : Bool
  public_api_signature_changed : Bool
  invariant_referenced_file_modified : Bool
  high_fan_in_module_modified : Bool
  ast_change_type : String
  mechanical_only : Bool

/-- `build_risk_signals`: orchestrates the five computations; the output
`mechanical_only` flag is demoted to `false` whenever a sensitive
pattern, an invariant-referenced file, or a high-fan-in module is
involved. -/
def build_risk_signals (base_content : Option PySrc) (head_content : PySrc)
    (filepath : String) (state_records : List StateRecord)
    (security_patterns : List String) : RiskSignals :=
  let mech := compute_mechanical_only base_content head_content
  let pub_api := compute_public_api_signature_changed base_content head_content
  let auth := compute_auth_pattern_touched head_content security_patterns
  let inv_ref := compute_invariant_referenced_file_modified filepath state_records
  let fan_in := compute_high_fan_in filepath state_records
  let change_type := derive_ast_change_type mech pub_api
  { touched_auth_or_permission_patterns := auth
    public_api_signature_changed := pub_api
    invariant_referenced_file_modified := inv_ref
    high_fan_in_module_modified := fan_in
    ast_change_type := change_type
    mechanical_only :=
      change_type == "mechanical" && !auth && !inv_ref && !fan_in }

/-- The parse of the empty string `""` — an empty module. -/
def emptyParse : PySrc := some []

/-- The per-file risk-signal step of `main`: a path ending in `.py` uses
the contents fetched from git (`none` meaning the file was absent at the
ref; an absent head is replaced by `""`); any other path calls
`build_risk_signals(None, "", ...)`. -/
def risk_signals_for_file (filepath : String)
    (base_fetch head_fetch : Option PySrc)
    (state_records : List StateRecord) (security_patterns : List String) : RiskSignals :=
  if strEndsWith filepath ".py" then
    build_risk_signals base_fetch (head_fetch.getD emptyParse)
      filepath state_records security_patterns
  else
    build_risk_signals none emptyParse filepath state_records security_patterns

/-! ### Parsed JSON documents (queue proposals and RFC files) -/

inductive J where
  | null
  | jbool (b : Bool)
  | num (n : Int)
  | str (s : String)
  | arr (elems : List J)
  | obj (fields : List (String × J))

/-- `d.get(key)` on a dictionary (`none` elsewhere; the crash Python
would raise on a non-dict is not modelled, no enforced path reaches
it).  Later duplicate keys win, as in `json.load`. -/
def J.get : J → String → Option J
  | .obj fields, key => dictGet fields key
  | _, _ => none

def J.isObj : J → Bool
  | .obj _ => true
  | _ => false

/-- Python truthiness of a parsed JSON value. -/
def J.truthy : J → Bool
  | .null => false
  | .jbool b => b
  | .num n => !(n == 0)
  | .str s => !(s == "")
  | .arr elems => !elems.isEmpty
  | .obj fields => !fields.isEmpty

/-- Python `value == "literal"` for a looked-up value. -/
def J.isStrVal : Option J → String → Bool
  | some (.str t), s => t == s
  | _, _ => false

/-- Python `value is True` for a looked-up value. -/
def J.isTrueVal : Option J → Bool
  | some (.jbool b) => b
  | _ => false

/-- Python `j == s` where `s` is a `str`. -/
def J.eqStr : J → String → Bool
  | .str t, s => t == s
  | _, _ => false

mutual
/-- Python `==` between two parsed JSON values (numeric/boolean
cross-type coercion such as `1 == True` is not modelled; the hook only
ever compares proposal-id values, which are strings in every schema). -/
def J.beq : J → J → Bool
  | .null, .null => true
  | .jbool a, .jbool b => a == b
  | .num a, .num b => a == b
  | .str a, .str b => a == b
  | .arr a, .arr b => J.beqList a b
  | .obj a, .obj b => J.beqFields a b
  | _, _ => false
def J.beqList : List J → List J → Bool
  | [], [] => true
  | x :: xs, y :: ys => J.beq x y && J.beqList xs ys
  | _, _ => false
def J.beqFields : List (String × J) → List (String × J) → Bool
  | [], [] => true
  | (k1, v1) :: xs, (k2, v2) :: ys => k1 == k2 && J.beq v1 v2 && J.beqFields xs ys
  | _, _ => false
end

/-! ### Check 5: Queue Budget -/

/-- The number of queue entries that are dictionaries with
`status == "pending"`. -/
def pending_count (queue : List J) : Nat :=
  queue.countP (fun p => p.isObj && J.isStrVal (p.get "status") "pending")

/-- `check_queue_budget`: an error message when the pending count has
reached `queue_max`, `none` otherwise.  (`knowledge.get("queue", [])` is
embedded as the queue list itself.) -/
def check_queue_budget (queue : List J) (queue_max : Int) : Option String :=
  if queue_max ≤ (pending_count queue : Int) then
    some ("SKL: Queue is full (" ++ toString (pending_count queue) ++ "/"
      ++ toString queue_max
      ++ " pending proposals). Wait for the Orchestrator to process the Queue before pushing.")
  else none

/-! ### Checks 6 and 7: the RFC gates.  RFC files are given as the list
of successfully parsed documents paired with their fallback name (the
file's basename, used when the RFC lacks an `id`); unparseable files are
skipped with a warning and so never appear in the list. -/

/-- The queue lookup `{p["proposal_id"]: p for dict p in queue}[tid]`
(later queue entries override earlier ones). -/
def queue_by_id_lookup : List J → J → Option J
  | [], _ => none
  | p :: rest, tid =>
    match queue_by_id_lookup rest tid with
    | some r => some r
    | none =>
      match p.get "proposal_id" with
      | some pid => if J.beq pid tid && p.isObj then some p else none
      | none => none

/-- The criteria of an RFC whose `status` is not `"passed"` (non-dict
entries are ignored). -/
def acceptance_failing (criteria : List J) : List J :=
  criteria.filter (fun c => c.isObj && !(J.isStrVal (c.get "status") "passed"))

/-- The `acceptance_criteria` list: `rfc.get("acceptance_criteria") or []`
(a falsy or missing value, and any non-list, contribute no criteria). -/
def acceptance_criteria_of (rfc : J) : List J :=
  match rfc.get "acceptance_criteria" with
  | some (J.arr cs) => cs
  | _ => []

/-- One RFC's contribution to Check 6: `some (rfc id, failing criteria)`
when this RFC blocks, `none` when it is skipped or satisfied. -/
def rfc_acceptance_block (queue : List J) (current_branch : String)
    (file_and_rfc : String × J) : Option (J × List J) :=
  let rfc := file_and_rfc.2
  if !(J.isTrueVal (rfc.get "merge_blocked_until_criteria_pass")) then none
  else if !(J.isStrVal (rfc.get "status") "open") then none
  else
    match rfc.get "triggering_proposal" with
    | none => none
    | some tid =>
      if !tid.truthy then none
      else
        match queue_by_id_lookup queue tid with
        | none => none
        | some proposal =>
          match proposal.get "branch" with
          | none => none
          | some pbranch =>
            if !pbranch.truthy then none
            else if !(pbranch.eqStr current_branch) then none
            else
              let failing := acceptance_failing (acceptance_criteria_of rfc)
              if failing.isEmpty then none
              else some ((rfc.get "id").getD (J.str file_and_rfc.1), failing)

/-- `check_acceptance_criteria`: the first blocking RFC (in directory
order) with its failing criteria — the hook prints the RFC id and one
line per failing criterion, then returns `False`; `none` means the push
is allowed. -/
def check_acceptance_criteria (queue : List J) (rfcs : List (String × J))
    (current_branch : String) : Option (J × List J) :=
  rfcs.findSome? (rfc_acceptance_block queue current_branch)

/-- One RFC's contribution to Check 7: `some (rfc id, raw deadline,
paused scope)` when this RFC blocks.  `parse_deadline` abstracts
`datetime.fromisoformat(raw.replace("Z", "+00:00"))` (`none` standing
for a `ValueError`); `now` is the UTC evaluation instant.  A non-string
deadline raises `AttributeError` in `.replace` and is skipped. -/
def rfc_scope_pause_block (queue : List J) (agent_scope : String)
    (parse_deadline : String → Option Int) (now : Int)
    (file_and_rfc : String × J) : Option (J × String × String) :=
  let rfc := file_and_rfc.2
  if !(J.isStrVal (rfc.get "status") "open") then none
  else
    match rfc.get "human_response_deadline" with
    | none => none
    | some raw =>
      if !raw.truthy then none
      else
        match raw with
        | J.str raw_deadline =>
          match parse_deadline raw_deadline with
          | none => none
          | some deadline =>
            if now < deadline then none
            else
              match rfc.get "triggering_proposal" with
              | none => none
              | some tid =>
                if !tid.truthy then none
                else
                  match queue_by_id_lookup queue tid with
                  | none => none
                  | some proposal =>
                    let proposal_scope := (proposal.get "semantic_scope").getD (J.str "")
                    if !(proposal_scope.eqStr agent_scope) then none
                    else some ((rfc.get "id").getD (J.str file_and_rfc.1),
                               raw_deadline, agent_scope)
        | _ => none

/-- `check_rfc_scope_pause`: the first expired-deadline RFC whose
triggering proposal's semantic scope equals the agent's — the hook
prints the RFC id, the raw deadline and the paused scope, then returns
`False`; `none` means the push is allowed. -/
def check_rfc_scope_pause (queue : List J) (rfcs : List (String × J))
    (agent_scope : String) (parse_deadline : String → Option Int)
    (now : Int) : Option (J × String × String) :=
  rfcs.findSome? (rfc_scope_pause_block queue agent_scope parse_deadline now)

/-! ### Checks 1 and 2: Scope Validator -/

/-- `FileViolation`: per-file flags collected by Checks 1 and 2. -/
structure FileViolation where
  path : String
  out_of_scope : Bool
  cross_scope_flag : Bool

/-- `check_file_scope`: every modified file gets a violation record;
with a non-empty `file_scope`, files outside it are `out_of_scope`
(an empty scope allows all files). -/
def check_file_scope (modified_files : List String) (file_scope : List String) :
    List FileViolation :=
  modified_files.map (fun p =>
    { path := p
      out_of_scope := !file_scope.isEmpty && !(file_scope.contains p)
      cross_scope_flag := false })

/-- An agent's semantic-scope entry from `scope_definitions.json`
(`scope_entry.get(key) or []`, embedded as total list fields). -/
structure ScopeEntry where
  allowed_paths : List String
  allowed_path_prefixes : List String
  forbidden_path_prefixes : List String

/-- The per-file body of Check 2's loop: exact allowed match passes,
then an allowed-prefix match passes, then a forbidden-prefix match sets
`cross_scope_flag`. -/
def apply_semantic_scope (entry : ScopeEntry) (v : FileViolation) : FileViolation :=
  if entry.allowed_paths.contains v.path then v
  else if entry.allowed_path_prefixes.any (fun pre => strStartsWith v.path pre) then v
  else if entry.forbidden_path_prefixes.any (fun pre => strStartsWith v.path pre) then
    { v with cross_scope_flag := true }
  else v

/-- `check_semantic_scope`: skipped silently when no scope entry was
resolved, otherwise applied to every violation record. -/
def check_semantic_scope (violations : List FileViolation)
    (scope_entry : Option ScopeEntry) : List FileViolation :=
  match scope_entry with
  | none => violations
  | some entry => violations.map (apply_semantic_scope entry)

/-! ### Check 4: Dependency Validator -/

/-- `sorted(...)` over strings (lexicographic code-point order). -/
def sortStr (l : List String) : List String :=
  l.mergeSort (fun a b => decide (a ≤ b))

/-- The scope-definitions document, reduced to the field Check 4 reads:
`known_expected_cross_scope_imports`.  Entries may be plain strings or
`{"imported_path": ...}` dictionaries in the JSON; both are embedded as
the extracted entry path. -/
structure ScopeDefsDoc where
  known_expected_cross_scope_imports : List String

/-- The `path_to_scope` dictionary built from all State records (later
records override earlier ones; the `if rec_path:` guard is kept even
though `normpath` never returns `""`). -/
def scope_lookup : List StateRecord → String → Option String
  | [], _ => none
  | record :: rest, p =>
    match scope_lookup rest p with
    | some s => some s
    | none =>
      let rec_path := normpath record.path
      if rec_path != "" && rec_path == p then some record.semantic_scope else none

/-- `path_to_scope.get(imp, "")`. -/
def path_to_scope (all_state_records : List StateRecord) (p : String) : String :=
  (scope_lookup all_state_records p).getD ""

/-- `_is_known_expected`: an entry ending in `"/"` matches by bare
string prefix of the normalized entry (no path-separator boundary);
any other entry matches by normalized path equality. -/
def is_known_expected (known_expected : List String) (imp : String) : Bool :=
  let norm := normpath imp
  known_expected.any (fun entry_path =>
    if strEndsWith entry_path "/" then
      strStartsWith norm (normpath (dropSlashesRight entry_path))
    else norm == normpath entry_path)

/-- The known-expected list of an optional scope-definitions document. -/
def known_expected_of : Option ScopeDefsDoc → List String
  | none => []
  | some doc => doc.known_expected_cross_scope_imports

/-- The cross-scope filter over the undeclared imports: the import's
owning scope is non-empty, differs from the agent's, and the import is
not known-expected. -/
def cross_scope_filter (undeclared : List String)
    (all_state_records : List StateRecord) (known_expected : List String)
    (agent_semantic_scope : String) : List String :=
  undeclared.filter (fun imp =>
    let imp_scope := path_to_scope all_state_records imp
    imp_scope != "" && imp_scope != agent_semantic_scope &&
      !(is_known_expected known_expected imp))

/-- The `DependencyScan` result record. -/
structure DepScan where
  undeclared_imports : List String
  stale_declared_deps : List String
  cross_scope_undeclared : List String

/-- `validate_dependencies`: set differences of the normalized scanned
imports against the declared dependencies (a missing State record — a
new file — reports empty `undeclared_imports`/`stale_declared_deps` but
still runs the cross-scope filter over the full scanned set). -/
def validate_dependencies (scanned_imports : List String)
    (state_record : Option StateRecord) (all_state_records : List StateRecord)
    (scope_definitions : Option ScopeDefsDoc)
    (agent_semantic_scope : String) : DepScan :=
  let norm_scanned := scanned_imports.map normpath
  let known := known_expected_of scope_definitions
  match state_record with
  | some record =>
    let declared := record.dependencies.map normpath
    let undeclared := sortStr (norm_scanned.dedup.filter (fun p => !(declared.contains p)))
    let stale := sortStr (declared.dedup.filter (fun p => !(norm_scanned.contains p)))
    { undeclared_imports := undeclared
      stale_declared_deps := stale
      cross_scope_undeclared :=
        cross_scope_filter undeclared all_state_records known agent_semantic_scope }
  | none =>
    let undeclared := sortStr norm_scanned.dedup
    { undeclared_imports := []
      stale_declared_deps := []
      cross_scope_undeclared :=
        cross_scope_filter undeclared all_state_records known agent_semantic_scope }

/-! ### Proposal Builder and the per-file loop of `main` -/

/-- Python `f"{seq:03d}"` for a natural number. -/
def fmt3 (seq : Nat) : String :=
  String.mk (List.replicate (3 - (decRepr seq).length) '0') ++ decRepr seq

/-- `PROPOSAL_ID_FORMAT.format(...)`:
`"prop_{date}_{agent_id}_{seq:03d}"`. -/
def build_proposal_id (date agent_id : String) (seq : Nat) : String :=
  "prop_" ++ date ++ "_" ++ agent_id ++ "_" ++ fmt3 seq

/-- A `QueueProposal` (the fields `build_proposal` assembles; the
all-null `classification_verification` sub-record is constant and
elided). -/
structure Proposal where
  proposal_id : String
  agent_id : String
  path : String
  semantic_scope : String
  status : String
  submitted_at : String
  out_of_scope : Bool
  cross_scope_flag : Bool
  risk_signals : RiskSignals
  dependency_scan : DepScan
  blocking_reasons : List String

/-- `build_proposal`: the id is formed from the submission date, the
agent id, and `queue_length + 1`; a non-empty `cross_scope_undeclared`
adds the one blocking reason. -/
def build_proposal (agent_id agent_scope : String) (date timestamp : String)
    (filepath : String) (out_of_scope cross_scope_flag : Bool)
    (risk_signals : RiskSignals) (dependency_scan : DepScan)
    (queue_length : Nat) : Proposal :=
  { proposal_id := build_proposal_id date agent_id (queue_length + 1)
    agent_id := agent_id
    path := filepath
    semantic_scope := agent_scope
    status := "pending"
    submitted_at := timestamp
    out_of_scope := out_of_scope
    cross_scope_flag := cross_scope_flag
    risk_signals := risk_signals
    dependency_scan := dependency_scan
    blocking_reasons :=
      if dependency_scan.cross_scope_undeclared.isEmpty then []
      else ["cross_scope_undeclared_dependency"] }

/-- The per-file loop of `main`, as far as proposal construction goes:
each file's proposal is built with `queue_length + len(proposals)`, so
the counter passed here advances by one per file.  The per-file flags
and scan results are supplied as functions of the path. -/
def build_proposals_loop (agent_id agent_scope date timestamp : String)
    (rs_of : String → RiskSignals) (ds_of : String → DepScan)
    (oos_of cs_of : String → Bool) : List String → Nat → List Proposal
  | [], _ => []
  | filepath :: rest, queue_length =>
    build_proposal agent_id agent_scope date timestamp filepath
      (oos_of filepath) (cs_of filepath) (rs_of filepath) (ds_of filepath)
      queue_length
    :: build_proposals_loop agent_id agent_scope date timestamp rs_of ds_of
        oos_of cs_of rest (queue_length + 1)

/-! ### Theorems -/

/-- C3: in every risk-signal record the engine builds, `mechanical_only`
is true iff the change type is `"mechanical"` and the sensitive-pattern,
invariant-referenced and high-fan-in flags are all false — it is derived
from the other fields, for every input. -/
theorem mechanical_only_is_derived (base_content : Option PySrc) (head_content : PySrc)
    (filepath : String) (state_records : List StateRecord)
    (security_patterns : List String) :
    (build_risk_signals base_content head_content filepath state_records
        security_patterns).mechanical_only = true ↔
      ((build_risk_signals base_content head_content filepath state_records
          security_patterns).ast_change_type = "mechanical" ∧
       (build_risk_signals base_content head_content filepath state_records
          security_patterns).touched_auth_or_permission_patterns = false ∧
       (build_risk_signals base_content head_content filepath state_records
          security_patterns).invariant_referenced_file_modified = false ∧
       (build_risk_signals base_content head_content filepath state_records
          security_patterns).high_fan_in_module_modified = false) := by
  simp [build_risk_signals, Bool.and_eq_true, Bool.not_eq_true', and_assoc]

/-- C5: a path that is an exact member of `allowed_paths` leaves
semantic-scope validation unchanged (so `cross_scope_flag` stays false),
whatever the forbidden prefixes say. -/
theorem exact_allow_beats_forbidden (entry : ScopeEntry) (v : FileViolation)
    (hmem : entry.allowed_paths.contains v.path = true)
    (hflag : v.cross_scope_flag = false) :
    check_semantic_scope [v] (some entry) = [v] := by
  have hmem2 : v.path ∈ entry.allowed_paths := by simpa using hmem
  simp [check_semantic_scope, apply_semantic_scope, hmem2]

def c5entry : ScopeEntry :=
  { allowed_paths := ["secrets/allowed.txt"]
    allowed_path_prefixes := []
    forbidden_path_prefixes := ["secrets/"] }

def c5viol : FileViolation :=
  { path := "secrets/allowed.txt", out_of_scope := false, cross_scope_flag := false }

theorem exact_allow_beats_forbidden_witness :
    c5entry.allowed_paths.contains c5viol.path = true ∧
    c5viol.cross_scope_flag = false ∧
    c5entry.forbidden_path_prefixes.any (fun pre => strStartsWith c5viol.path pre) = true ∧
    check_semantic_scope [c5viol] (some c5entry) = [c5viol] :=
  ⟨by decide, by decide, by decide,
   exact_allow_beats_forbidden c5entry c5viol (by decide) (by decide)⟩

/-- C1 (counterexample): a modified file whose path does not end in
`.py` gets `public_api_signature_changed = true` in its risk-signal
record, not the claimed `false` — the non-source branch passes an
absent base, which is the new-file safe default of the signature
check. -/
theorem nonsource_public_api_counterexample :
    strEndsWith "README.md" ".py" = false ∧
    (risk_signals_for_file "README.md" none none [] []).public_api_signature_changed
      = true := by
  constructor
  · decide
  · decide

/-- C1 (amended): for every modified file whose path does not end in
`.py`, the risk-signal record has `mechanical_only = false` and
`touched_auth_or_permission_patterns = false`, but
`public_api_signature_changed = true` (the new-file safe default, since
the non-source branch calls the engine with an absent base); the
invariant-referenced and fan-in checks still apply to it. -/
theorem nonsource_defaults (filepath : String)
    (base_fetch head_fetch : Option PySrc)
    (state_records : List StateRecord) (security_patterns : List String)
    (h : strEndsWith filepath ".py" = false) :
    (risk_signals_for_file filepath base_fetch head_fetch state_records
        security_patterns).mechanical_only = false ∧
    (risk_signals_for_file filepath base_fetch head_fetch state_records
        security_patterns).public_api_signature_changed = true ∧
    (risk_signals_for_file filepath base_fetch head_fetch state_records
        security_patterns).touched_auth_or_permission_patterns = false ∧
    (risk_signals_for_file filepath base_fetch head_fetch state_records
        security_patterns).invariant_referenced_file_modified
      = compute_invariant_referenced_file_modified filepath state_records ∧
    (risk_signals_for_file filepath base_fetch head_fetch state_records
        security_patterns).high_fan_in_module_modified
      = compute_high_fan_in filepath state_records := by
  simp [risk_signals_for_file, h, build_risk_signals, compute_mechanical_only,
    compute_public_api_signature_changed, compute_auth_pattern_touched,
    emptyParse, derive_ast_change_type, PyStmt.identsList]

theorem nonsource_defaults_witness :
    strEndsWith "docs/guide.md" ".py" = false ∧
    ((risk_signals_for_file "docs/guide.md" none none [] []).mechanical_only = false ∧
     (risk_signals_for_file "docs/guide.md" none none [] []).public_api_signature_changed = true ∧
     (risk_signals_for_file "docs/guide.md" none none [] []).touched_auth_or_permission_patterns = false ∧
     (risk_signals_for_file "docs/guide.md" none none [] []).invariant_referenced_file_modified
       = compute_invariant_referenced_file_modified "docs/guide.md" [] ∧
     (risk_signals_for_file "docs/guide.md" none none [] []).high_fan_in_module_modified
       = compute_high_fan_in "docs/guide.md" []) :=
  ⟨by decide, nonsource_defaults "docs/guide.md" none none [] [] (by decide)⟩

/-- C4: the queue gate passes exactly when the pending count is below
the configured maximum (so `max − 1` pending passes and `max` pending
blocks), and every blocking message contains the text
`"<count>/<max>"`. -/
theorem queue_gate_boundary (queue : List J) (queue_max : Int) :
    (check_queue_budget queue queue_max = none ↔
      (pending_count queue : Int) < queue_max) ∧
    (∀ msg, check_queue_budget queue queue_max = some msg →
      (toString (pending_count queue) ++ "/" ++ toString queue_max).data <:+: msg.data) := by
  constructor
  · unfold check_queue_budget
    split
    · next h => simp; omega
    · next h => simp; omega
  · intro msg h
    unfold check_queue_budget at h
    split at h
    · next hle =>
      have hmsg := (Option.some.injEq _ _).mp h
      refine ⟨"SKL: Queue is full (".data,
        " pending proposals). Wait for the Orchestrator to process the Queue before pushing.".data,
        ?_⟩
      rw [← hmsg]
      simp [String.data_append]
    · exact absurd h (by simp)

def c4queuePending : List J :=
  [J.obj [("proposal_id", J.str "p1"), ("status", J.str "pending")],
   J.obj [("proposal_id", J.str "p2"), ("status", J.str "pending")],
   J.obj [("proposal_id", J.str "p3"), ("status", J.str "merged")]]

def c4msg : String :=
  "SKL: Queue is full (2/2 pending proposals). Wait for the Orchestrator to process the Queue before pushing."

theorem queue_gate_boundary_witness :
    pending_count c4queuePending = 2 ∧
    check_queue_budget c4queuePending 3 = none ∧
    check_queue_budget c4queuePending 2 = some c4msg ∧
    (toString (pending_count c4queuePending) ++ "/" ++ toString (2 : Int)).data <:+: c4msg.data :=
  ⟨by decide,
   (queue_gate_boundary c4queuePending 3).1.mpr (by decide),
   by decide,
   (queue_gate_boundary c4queuePending 2).2 c4msg (by decide)⟩

/-! ### C2: mechanical-only implies no public-API signature change.
The bridge is `defsig`, the name-to-signature-key view of a module's
top level: cosmetic stripping preserves it, and structural equality of
trees forces it to agree. -/

/-- The top-level definitions of a module, reduced to their signature
keys. -/
def defsig (tree : PyModule) : List (String × List String) :=
  (extract_top_level_defs tree).map (fun p => (p.1, signature_key p.2))

theorem signature_key_stripStmt (s : PyStmt) :
    signature_key (stripStmt s) = signature_key s := by
  cases s <;> rfl

theorem defsig_cons (s : PyStmt) (rest : List PyStmt) :
    defsig (s :: rest) =
      (match s with
       | .functionDef n _ _ _ => [(n, signature_key s)]
       | .asyncFunctionDef n _ _ _ => [(n, signature_key s)]
       | .classDef n _ _ => [(n, signature_key s)]
       | _ => []) ++ defsig rest := by
  cases s <;> simp [defsig, extract_top_level_defs]

theorem defsig_stripStmts (tree : List PyStmt) :
    defsig (stripStmts tree) = defsig tree := by
  induction tree with
  | nil => rfl
  | cons s rest ih =>
    cases s with
    | exprStmt e =>
      cases e <;>
        simp [stripStmts, isCosmetic, stripStmt, defsig_cons, ih]
    | _ =>
      simp [stripStmts, isCosmetic, stripStmt, defsig_cons, ih, signature_key]

theorem pyArgBeqList_names (xs : List PyArg) :
    ∀ ys, PyArg.beqList xs ys = true → xs.map PyArg.name = ys.map PyArg.name := by
  induction xs with
  | nil => intro ys h; cases ys with
    | nil => rfl
    | cons y ys => simp [PyArg.beqList] at h
  | cons x xs ih => intro ys h; cases ys with
    | nil => simp [PyArg.beqList] at h
    | cons y ys =>
      simp only [PyArg.beqList, Bool.and_eq_true] at h
      obtain ⟨hx, hrest⟩ := h
      have hn : x.name = y.name := by
        simp only [PyArg.beq, Bool.and_eq_true, beq_iff_eq] at hx
        exact hx.1
      simp [hn, ih ys hrest]

theorem pyExprBeqList_length (xs : List PyExpr) :
    ∀ ys, PyExpr.beqList xs ys = true → xs.length = ys.length := by
  induction xs with
  | nil => intro ys h; cases ys with
    | nil => rfl
    | cons y ys => simp [PyExpr.beqList] at h
  | cons x xs ih => intro ys h; cases ys with
    | nil => simp [PyExpr.beqList] at h
    | cons y ys =>
      simp only [PyExpr.beqList, Bool.and_eq_true] at h
      simp [ih ys h.2]

theorem pyExprBeqOpt_isSome (x y : Option PyExpr) :
    PyExpr.beqOpt x y = true → x.isSome = y.isSome := by
  cases x <;> cases y <;> simp [PyExpr.beqOpt]

theorem pyExprBeqOptList_countP (xs : List (Option PyExpr)) :
    ∀ ys, PyExpr.beqOptList xs ys = true →
      xs.countP Option.isSome = ys.countP Option.isSome := by
  induction xs with
  | nil => intro ys h; cases ys with
    | nil => rfl
    | cons y ys => simp [PyExpr.beqOptList] at h
  | cons x xs ih => intro ys h; cases ys with
    | nil => simp [PyExpr.beqOptList] at h
    | cons y ys =>
      simp only [PyExpr.beqOptList, Bool.and_eq_true] at h
      obtain ⟨hx, hrest⟩ := h
      simp [List.countP_cons, ih ys hrest, pyExprBeqOpt_isSome x y hx]

theorem pyArgBeqOpt_isSome (x y : Option PyArg) :
    PyArg.beqOpt x y = true → x.isSome = y.isSome := by
  cases x <;> cases y <;> simp [PyArg.beqOpt]

theorem pyArgsBeq_sig (n : String) (a1 a2 : PyArgs)
    (h : PyArgs.beq a1 a2 = true) : sig_key_args n a1 = sig_key_args n a2 := by
  simp only [PyArgs.beq, Bool.and_eq_true] at h
  obtain ⟨⟨⟨⟨⟨⟨_, hargs⟩, hvar⟩, hkwonly⟩, hkwdef⟩, hkwarg⟩, hdef⟩ := h
  simp only [sig_key_args]
  rw [pyArgBeqList_names _ _ hargs, pyArgBeqList_names _ _ hkwonly,
    pyArgBeqOpt_isSome _ _ hvar, pyArgBeqOpt_isSome _ _ hkwarg,
    pyExprBeqList_length _ _ hdef, pyExprBeqOptList_countP _ _ hkwdef]

theorem stmtBeq_defsig_head (x y : PyStmt) (h : PyStmt.beq x y = true) :
    defsig [x] = defsig [y] := by
  cases x <;> cases y <;>
    simp only [PyStmt.beq, Bool.and_eq_true, beq_iff_eq, Bool.false_eq_true] at h <;>
    simp only [defsig_cons, signature_key]
  case functionDef.functionDef =>
    obtain ⟨⟨⟨hn, ha⟩, _⟩, _⟩ := h
    rw [hn, pyArgsBeq_sig _ _ _ ha]
  case asyncFunctionDef.asyncFunctionDef =>
    obtain ⟨⟨⟨hn, ha⟩, _⟩, _⟩ := h
    rw [hn, pyArgsBeq_sig _ _ _ ha]
  case classDef.classDef =>
    obtain ⟨⟨hn, _⟩, _⟩ := h
    rw [hn]

theorem defsig_split (s : PyStmt) (rest : List PyStmt) :
    defsig (s :: rest) = defsig [s] ++ defsig rest := by
  cases s <;> simp [defsig, extract_top_level_defs]

theorem beqList_defsig (xs : List PyStmt) :
    ∀ ys, PyStmt.beqList xs ys = true → defsig xs = defsig ys := by
  induction xs with
  | nil => intro ys h; cases ys with
    | nil => rfl
    | cons y ys => simp [PyStmt.beqList] at h
  | cons x xs ih => intro ys h; cases ys with
    | nil => simp [PyStmt.beqList] at h
    | cons y ys =>
      simp only [PyStmt.beqList, Bool.and_eq_true] at h
      obtain ⟨hx, hrest⟩ := h
      rw [defsig_split x xs, defsig_split y ys, stmtBeq_defsig_head x y hx,
        ih ys hrest]

theorem dictGet_map {α β : Type} (g : α → β) (l : List (String × α)) (k : String) :
    dictGet (l.map (fun p => (p.1, g p.2))) k = (dictGet l k).map g := by
  induction l with
  | nil => rfl
  | cons p rest ih =>
    obtain ⟨kk, v⟩ := p
    simp only [List.map_cons, dictGet, ih]
    cases dictGet rest k <;> simp

theorem keySetEq_self (l : List String) : keySetEq l l = true := by
  simp [keySetEq, List.all_eq_true]

/-- C2: whenever the tree differ classifies a change as mechanical-only,
the signature extractor reports no public-API change — cosmetic
stripping cannot erase an added, removed, or signature-altered top-level
declaration. -/
theorem mechanical_implies_api_unchanged (base_content : Option PySrc)
    (head_content : PySrc)
    (h : compute_mechanical_only base_content head_content = true) :
    compute_public_api_signature_changed base_content head_content = false := by
  match base_content, head_content with
  | none, _ => simp [compute_mechanical_only] at h
  | some none, _ => simp [compute_mechanical_only] at h
  | some (some _), none => simp [compute_mechanical_only] at h
  | some (some base_tree), some head_tree =>
    have hbeq : PyStmt.beqList (stripStmts base_tree) (stripStmts head_tree) = true := h
    have hsig : defsig base_tree = defsig head_tree := by
      have h1 := beqList_defsig _ _ hbeq
      rwa [defsig_stripStmts, defsig_stripStmts] at h1
    have hkeys : (extract_top_level_defs base_tree).map Prod.fst
        = (extract_top_level_defs head_tree).map Prod.fst := by
      have h2 := congrArg (List.map Prod.fst) hsig
      simpa [defsig, List.map_map, Function.comp_def] using h2
    have hsigOf : ∀ n, sigOf (extract_top_level_defs base_tree) n
        = sigOf (extract_top_level_defs head_tree) n := by
      intro n
      have h3 : dictGet (defsig base_tree) n = dictGet (defsig head_tree) n := by
        rw [hsig]
      simpa only [defsig, dictGet_map, sigOf] using h3
    show (if !(keySetEq (defKeys (extract_top_level_defs base_tree))
          (defKeys (extract_top_level_defs head_tree))) then true
        else (defKeys (extract_top_level_defs base_tree)).any
          (fun n => sigOf (extract_top_level_defs base_tree) n
            != sigOf (extract_top_level_defs head_tree) n)) = false
    rw [defKeys, defKeys, hkeys, keySetEq_self]
    simp only [Bool.not_true, Bool.false_eq_true, if_false]
    simp [List.any_eq_false, hsigOf]

theorem mechanical_implies_api_unchanged_witness :
    compute_mechanical_only (some (some [PyStmt.passStmt])) (some []) = true ∧
    compute_public_api_signature_changed (some (some [PyStmt.passStmt])) (some [])
      = false :=
  ⟨by rfl, mechanical_implies_api_unchanged (some (some [PyStmt.passStmt])) (some []) (by rfl)⟩

/-! ### C9: proposal-identifier uniqueness.  The decimal formatter is
inverted by `decodeDecimal`, which makes `fmt3` (and with it the full
identifier at fixed date and agent) injective. -/

def charDigitVal (c : Char) : Nat := c.toNat - '0'.toNat

def decodeDecimal (s : String) : Nat :=
  s.data.foldl (fun acc c => acc * 10 + charDigitVal c) 0

theorem charDigitVal_digitChar : ∀ d < 10, charDigitVal (Nat.digitChar d) = d := by
  decide

theorem foldl_decimal_digits (ds : List Nat) (hds : ∀ d ∈ ds, d < 10) :
    ((ds.map Nat.digitChar).reverse).foldl (fun acc c => acc * 10 + charDigitVal c) 0
      = Nat.ofDigits 10 ds := by
  induction ds with
  | nil => simp [Nat.ofDigits]
  | cons d tl ih =>
    have hd : d < 10 := hds d (List.mem_cons_self d tl)
    have htl : ∀ x ∈ tl, x < 10 := fun x hx => hds x (List.mem_cons_of_mem d hx)
    simp only [List.map_cons, List.reverse_cons, List.foldl_append, ih htl,
      List.foldl_cons, List.foldl_nil, Nat.ofDigits_cons,
      charDigitVal_digitChar d hd]
    omega

theorem decodeDecimal_decRepr (n : Nat) : decodeDecimal (decRepr n) = n := by
  by_cases h : n = 0
  · subst h; decide
  · have hdig : ∀ d ∈ Nat.digits 10 n, d < 10 := fun d hd =>
      Nat.digits_lt_base (by norm_num) hd
    have := foldl_decimal_digits (Nat.digits 10 n) hdig
    rw [Nat.ofDigits_digits] at this
    simpa [decRepr, h, decodeDecimal] using this

theorem decodeDecimal_zeros (k : Nat) (l : List Char) :
    (List.replicate k '0' ++ l).foldl (fun acc c => acc * 10 + charDigitVal c) 0
      = l.foldl (fun acc c => acc * 10 + charDigitVal c) 0 := by
  induction k with
  | zero => rfl
  | succ k ih => simpa [List.replicate_succ] using ih

theorem decodeDecimal_fmt3 (n : Nat) : decodeDecimal (fmt3 n) = n := by
  have : decodeDecimal (fmt3 n) = decodeDecimal (decRepr n) := by
    simp only [decodeDecimal, fmt3, String.data_append]
    exact decodeDecimal_zeros _ _
  rw [this, decodeDecimal_decRepr]

theorem fmt3_inj {a b : Nat} (h : fmt3 a = fmt3 b) : a = b := by
  have := congrArg decodeDecimal h
  rwa [decodeDecimal_fmt3, decodeDecimal_fmt3] at this

theorem str_append_cancel_left (p x y : String) (h : p ++ x = p ++ y) : x = y := by
  have hd := congrArg String.data h
  rw [String.data_append, String.data_append] at hd
  have h2 := List.append_cancel_left hd
  cases x; cases y
  simp only at h2
  exact congrArg String.mk h2

theorem build_proposal_id_inj (date agent_id : String) {a b : Nat}
    (h : build_proposal_id date agent_id a = build_proposal_id date agent_id b) :
    a = b := by
  unfold build_proposal_id at h
  exact fmt3_inj (str_append_cancel_left _ _ _ h)

theorem build_proposals_loop_get (agent_id agent_scope date timestamp : String)
    (rs_of : String → RiskSignals) (ds_of : String → DepScan)
    (oos_of cs_of : String → Bool) :
    ∀ (files : List String) (queue_length i : Nat), i < files.length →
      ((build_proposals_loop agent_id agent_scope date timestamp rs_of ds_of
          oos_of cs_of files queue_length).map Proposal.proposal_id).get? i
        = some (build_proposal_id date agent_id (queue_length + i + 1)) := by
  intro files
  induction files with
  | nil => intro k i hi; simp at hi
  | cons f rest ih =>
    intro k i hi
    cases i with
    | zero => simp [build_proposals_loop, build_proposal]
    | succ i =>
      have hi2 : i < rest.length := by simpa using hi
      have := ih (k + 1) i hi2
      simp only [build_proposals_loop, List.map_cons, List.get?_cons_succ, this]
      congr 2
      omega

/-- C9: within one run, the proposal identifiers are pairwise distinct —
the `i`-th file of the batch gets the id formed from the submission
date, the agent id, and sequence number `queue_length + i + 1`, and that
formation is injective in the sequence number. -/
theorem proposal_ids_distinct (agent_id agent_scope date timestamp : String)
    (rs_of : String → RiskSignals) (ds_of : String → DepScan)
    (oos_of cs_of : String → Bool) (files : List String)
    (queue_length i j : Nat)
    (hi : i < files.length) (hj : j < files.length) (hne : i ≠ j) :
    ((build_proposals_loop agent_id agent_scope date timestamp rs_of ds_of
        oos_of cs_of files queue_length).map Proposal.proposal_id).get? i
      = some (build_proposal_id date agent_id (queue_length + i + 1)) ∧
    ((build_proposals_loop agent_id agent_scope date timestamp rs_of ds_of
        oos_of cs_of files queue_length).map Proposal.proposal_id).get? i
      ≠ ((build_proposals_loop agent_id agent_scope date timestamp rs_of ds_of
          oos_of cs_of files queue_length).map Proposal.proposal_id).get? j := by
  refine ⟨build_proposals_loop_get _ _ _ _ _ _ _ _ files queue_length i hi, ?_⟩
  rw [build_proposals_loop_get _ _ _ _ _ _ _ _ files queue_length i hi,
    build_proposals_loop_get _ _ _ _ _ _ _ _ files queue_length j hj]
  intro hcontra
  have hids := (Option.some.injEq _ _).mp hcontra
  have := build_proposal_id_inj date agent_id hids
  omega

def rsNeutral : RiskSignals :=
  { touched_auth_or_permission_patterns := false
    public_api_signature_changed := false
    invariant_referenced_file_modified := false
    high_fan_in_module_modified := false
    ast_change_type := "behavioral"
    mechanical_only := false }

def dsNeutral : DepScan :=
  { undeclared_imports := [], stale_declared_deps := [], cross_scope_undeclared := [] }

theorem proposal_ids_distinct_witness :
    ((build_proposals_loop "Agent-1" "api" "20260101" "2026-01-01T00:00:00Z"
        (fun _ => rsNeutral) (fun _ => dsNeutral) (fun _ => false) (fun _ => false)
        ["app/a.py", "app/b.py"] 4).map Proposal.proposal_id).get? 0
      = some (build_proposal_id "20260101" "Agent-1" 5) ∧
    ((build_proposals_loop "Agent-1" "api" "20260101" "2026-01-01T00:00:00Z"
        (fun _ => rsNeutral) (fun _ => dsNeutral) (fun _ => false) (fun _ => false)
        ["app/a.py", "app/b.py"] 4).map Proposal.proposal_id).get? 0
      ≠ ((build_proposals_loop "Agent-1" "api" "20260101" "2026-01-01T00:00:00Z"
          (fun _ => rsNeutral) (fun _ => dsNeutral) (fun _ => false) (fun _ => false)
          ["app/a.py", "app/b.py"] 4).map Proposal.proposal_id).get? 1 :=
  proposal_ids_distinct "Agent-1" "api" "20260101" "2026-01-01T00:00:00Z"
    (fun _ => rsNeutral) (fun _ => dsNeutral) (fun _ => false) (fun _ => false)
    ["app/a.py", "app/b.py"] 4 0 1 (by decide) (by decide) (by decide)

/-! ### C8 and C10: the dependency validator -/

theorem mem_sortStr {x : String} {l : List String} : x ∈ sortStr l ↔ x ∈ l := by
  simp [sortStr, List.mem_mergeSort]

/-- C8: a newly tracked file (no State record) yields empty
`undeclared_imports` and `stale_declared_deps`, yet every scanned import
whose owning scope is non-empty, differs from the agent's scope, and is
not known-expected still shows up (normalized) in
`cross_scope_undeclared`. -/
theorem new_file_cross_scope (scanned_imports : List String)
    (all_state_records : List StateRecord)
    (scope_definitions : Option ScopeDefsDoc) (agent_semantic_scope : String)
    (imp : String) (hmem : imp ∈ scanned_imports)
    (hscope : path_to_scope all_state_records (normpath imp) ≠ "")
    (hdiff : path_to_scope all_state_records (normpath imp) ≠ agent_semantic_scope)
    (hknown : is_known_expected (known_expected_of scope_definitions) (normpath imp)
      = false) :
    (validate_dependencies scanned_imports none all_state_records scope_definitions
        agent_semantic_scope).undeclared_imports = [] ∧
    (validate_dependencies scanned_imports none all_state_records scope_definitions
        agent_semantic_scope).stale_declared_deps = [] ∧
    normpath imp ∈ (validate_dependencies scanned_imports none all_state_records
        scope_definitions agent_semantic_scope).cross_scope_undeclared := by
  refine ⟨rfl, rfl, ?_⟩
  show normpath imp ∈ cross_scope_filter (sortStr (scanned_imports.map normpath).dedup)
    all_state_records (known_expected_of scope_definitions) agent_semantic_scope
  rw [cross_scope_filter, List.mem_filter]
  constructor
  · exact mem_sortStr.mpr (List.mem_dedup.mpr (List.mem_map_of_mem normpath hmem))
  · simp [hknown, bne_iff_ne, hscope, hdiff]

def c8records : List StateRecord :=
  [{ path := "billing/ledger.py", semantic_scope := "billing",
     dependencies := [], invariants_touched := [] }]

theorem new_file_cross_scope_witness :
    "billing/ledger.py" ∈ ["billing/ledger.py"] ∧
    path_to_scope c8records (normpath "billing/ledger.py") = "billing" ∧
    ((validate_dependencies ["billing/ledger.py"] none c8records none
        "api").undeclared_imports = [] ∧
     (validate_dependencies ["billing/ledger.py"] none c8records none
        "api").stale_declared_deps = [] ∧
     normpath "billing/ledger.py" ∈ (validate_dependencies ["billing/ledger.py"] none
        c8records none "api").cross_scope_undeclared) :=
  ⟨by decide, by decide,
   new_file_cross_scope ["billing/ledger.py"] c8records none "api" "billing/ledger.py"
     (by decide) (by decide) (by decide) (by decide)⟩

/-- C10: a `known_expected_cross_scope_imports` entry that ends with a
path separator excludes any undeclared import whose normalized path
merely begins with the entry's text minus the trailing separator — a
bare string prefix with no separator boundary, so `"app/"` also excludes
imports under a sibling directory such as `"apple/"`. -/
theorem known_expected_bare_match (known_expected : List String)
    (entry imp : String) (hentry : entry ∈ known_expected)
    (hslash : strEndsWith entry "/" = true)
    (hpre : strStartsWith (normpath imp) (normpath (dropSlashesRight entry)) = true) :
    is_known_expected known_expected imp = true ∧
    ∀ (scanned_imports : List String) (state_record : Option StateRecord)
      (all_state_records : List StateRecord) (agent_semantic_scope : String),
      imp ∉ (validate_dependencies scanned_imports state_record all_state_records
          (some { known_expected_cross_scope_imports := known_expected })
          agent_semantic_scope).cross_scope_undeclared := by
  have hke : is_known_expected known_expected imp = true := by
    rw [is_known_expected, List.any_eq_true]
    exact ⟨entry, hentry, by simp [hslash, hpre]⟩
  refine ⟨hke, ?_⟩
  intro scanned_imports state_record all_state_records agent_semantic_scope hin
  have hfilters : ∀ undecl : List String,
      imp ∈ cross_scope_filter undecl all_state_records known_expected
        agent_semantic_scope → False := by
    intro undecl hmem2
    rw [cross_scope_filter, List.mem_filter] at hmem2
    have := hmem2.2
    simp [hke] at this
  cases state_record with
  | none =>
    exact hfilters _ (by simpa [validate_dependencies, known_expected_of] using hin)
  | some record =>
    exact hfilters _ (by simpa [validate_dependencies, known_expected_of] using hin)

def c10records : List StateRecord :=
  [{ path := "apple/main.py", semantic_scope := "fruit",
     dependencies := [], invariants_touched := [] }]

theorem known_expected_bare_match_witness :
    "app/" ∈ ["app/"] ∧
    strEndsWith "app/" "/" = true ∧
    strStartsWith (normpath "apple/main.py") (normpath (dropSlashesRight "app/")) = true ∧
    path_to_scope c10records "apple/main.py" = "fruit" ∧
    is_known_expected ["app/"] "apple/main.py" = true ∧
    "apple/main.py" ∉ (validate_dependencies ["apple/main.py"] none c10records
        (some { known_expected_cross_scope_imports := ["app/"] })
        "api").cross_scope_undeclared :=
  ⟨by decide, by decide, by decide, by decide,
   (known_expected_bare_match ["app/"] "app/" "apple/main.py"
     (by decide) (by decide) (by decide)).1,
   (known_expected_bare_match ["app/"] "app/" "apple/main.py"
     (by decide) (by decide) (by decide)).2 ["apple/main.py"] none c10records "api"⟩

/-! ### C6 and C7: RFC gate scenarios -/

/-- An open, merge-blocked RFC with one passed and one pending
acceptance criterion. -/
def rfc_two_criteria (rfcId acPassId acPendId tid : String) : J :=
  J.obj [("id", J.str rfcId), ("status", J.str "open"),
         ("merge_blocked_until_criteria_pass", J.jbool true),
         ("triggering_proposal", J.str tid),
         ("acceptance_criteria", J.arr
            [J.obj [("ac_id", J.str acPassId), ("status", J.str "passed")],
             J.obj [("ac_id", J.str acPendId), ("status", J.str "pending")]])]

/-- A queued proposal carrying a branch and a semantic scope. -/
def queued_proposal (tid branch scope : String) : J :=
  J.obj [("proposal_id", J.str tid), ("branch", J.str branch),
         ("semantic_scope", J.str scope)]

/-- C6: an open merge-blocked RFC with one passed and one pending
criterion, whose triggering proposal resolves in the queue with the
current branch, blocks the push naming the RFC's id and exactly the
pending criterion; the same RFC evaluated on a different current branch
does not block. -/
theorem acceptance_gate_scenario (rfcId acPassId acPendId tid branch scope
    other fname : String) (htid : tid ≠ "") (hbranch : branch ≠ "") :
    check_acceptance_criteria [queued_proposal tid branch scope]
        [(fname, rfc_two_criteria rfcId acPassId acPendId tid)] branch
      = some (J.str rfcId,
          [J.obj [("ac_id", J.str acPendId), ("status", J.str "pending")]]) ∧
    (other ≠ branch →
      check_acceptance_criteria [queued_proposal tid branch scope]
          [(fname, rfc_two_criteria rfcId acPassId acPendId tid)] other = none) := by
  constructor
  · simp [check_acceptance_criteria, rfc_acceptance_block, rfc_two_criteria,
      queued_proposal, J.get, dictGet, J.isTrueVal, J.isStrVal, J.truthy,
      J.eqStr, J.beq, J.isObj, queue_by_id_lookup, acceptance_criteria_of,
      acceptance_failing, htid, hbranch]
  · intro hother
    simp [check_acceptance_criteria, rfc_acceptance_block, rfc_two_criteria,
      queued_proposal, J.get, dictGet, J.isTrueVal, J.isStrVal, J.truthy,
      J.eqStr, J.beq, J.isObj, queue_by_id_lookup, acceptance_criteria_of,
      acceptance_failing, htid, hbranch, Ne.symm hother]

theorem acceptance_gate_scenario_witness :
    ("prop_1" : String) ≠ "" ∧ ("feature/x" : String) ≠ "" ∧
    (check_acceptance_criteria [queued_proposal "prop_1" "feature/x" "api"]
        [("rfc_001.json", rfc_two_criteria "RFC-001" "AC-1" "AC-2" "prop_1")]
        "feature/x"
      = some (J.str "RFC-001",
          [J.obj [("ac_id", J.str "AC-2"), ("status", J.str "pending")]]) ∧
     (("main" : String) ≠ "feature/x" →
      check_acceptance_criteria [queued_proposal "prop_1" "feature/x" "api"]
          [("rfc_001.json", rfc_two_criteria "RFC-001" "AC-1" "AC-2" "prop_1")]
          "main" = none)) :=
  ⟨by decide, by decide,
   acceptance_gate_scenario "RFC-001" "AC-1" "AC-2" "prop_1" "feature/x" "api"
     "main" "rfc_001.json" (by decide) (by decide)⟩

/-- An open RFC with a human-response deadline. -/
def rfc_deadline (rfcId dl tid : String) : J :=
  J.obj [("id", J.str rfcId), ("status", J.str "open"),
         ("human_response_deadline", J.str dl),
         ("triggering_proposal", J.str tid)]

/-- The same RFC shape with no deadline field. -/
def rfc_no_deadline (rfcId tid : String) : J :=
  J.obj [("id", J.str rfcId), ("status", J.str "open"),
         ("triggering_proposal", J.str tid)]

/-- C7: an open RFC whose deadline parses to an instant not after `now`
and whose triggering proposal resolves to the agent's semantic scope
blocks, naming the RFC id, the raw deadline string and the paused scope;
with a differing agent scope, a future deadline, no deadline at all, or
a triggering proposal that does not resolve in the queue, the gate never
blocks. -/
theorem scope_pause_gate_scenario (rfcId dl tid branch scope agent_scope
    fname : String) (parse_deadline : String → Option Int) (now d : Int)
    (htid : tid ≠ "") (hdl : dl ≠ "") (hparse : parse_deadline dl = some d) :
    (d ≤ now →
      check_rfc_scope_pause [queued_proposal tid branch scope]
          [(fname, rfc_deadline rfcId dl tid)] scope parse_deadline now
        = some (J.str rfcId, dl, scope)) ∧
    (agent_scope ≠ scope →
      check_rfc_scope_pause [queued_proposal tid branch scope]
          [(fname, rfc_deadline rfcId dl tid)] agent_scope parse_deadline now
        = none) ∧
    (now < d →
      check_rfc_scope_pause [queued_proposal tid branch scope]
          [(fname, rfc_deadline rfcId dl tid)] scope parse_deadline now = none) ∧
    (check_rfc_scope_pause [queued_proposal tid branch scope]
        [(fname, rfc_no_deadline rfcId tid)] scope parse_deadline now = none) ∧
    (check_rfc_scope_pause []
        [(fname, rfc_deadline rfcId dl tid)] scope parse_deadline now = none) := by
  refine ⟨?_, ?_, ?_, ?_, ?_⟩
  · intro hle
    simp [check_rfc_scope_pause, rfc_scope_pause_block, rfc_deadline,
      queued_proposal, J.get, dictGet, J.isStrVal, J.truthy, J.eqStr, J.beq,
      queue_by_id_lookup, J.isObj, htid, hdl, hparse, not_lt.mpr hle]
  · intro hne
    rcases le_or_lt d now with hle | hlt
    · simp [check_rfc_scope_pause, rfc_scope_pause_block, rfc_deadline,
        queued_proposal, J.get, dictGet, J.isStrVal, J.truthy, J.eqStr, J.beq,
        queue_by_id_lookup, J.isObj, htid, hdl, hparse, not_lt.mpr hle,
        Ne.symm hne]
    · simp [check_rfc_scope_pause, rfc_scope_pause_block, rfc_deadline,
        J.get, dictGet, J.isStrVal, J.truthy, hdl, hparse, hlt]
  · intro hlt
    simp [check_rfc_scope_pause, rfc_scope_pause_block, rfc_deadline,
      J.get, dictGet, J.isStrVal, J.truthy, hdl, hparse, hlt]
  · simp [check_rfc_scope_pause, rfc_scope_pause_block, rfc_no_deadline,
      J.get, dictGet, J.isStrVal, J.truthy]
  · simp [check_rfc_scope_pause, rfc_scope_pause_block, rfc_deadline,
      J.get, dictGet, J.isStrVal, J.truthy, J.eqStr, J.beq,
      queue_by_id_lookup, htid, hdl, hparse]

theorem scope_pause_gate_scenario_witness :
    ("prop_9" : String) ≠ "" ∧ ("2026-01-01T00:00:00Z" : String) ≠ "" ∧
    (fun (_ : String) => some (100 : Int)) "2026-01-01T00:00:00Z" = some 100 ∧
    ((100 : Int) ≤ 150 →
      check_rfc_scope_pause [queued_proposal "prop_9" "feature/y" "api"]
          [("rfc_007.json", rfc_deadline "RFC-007" "2026-01-01T00:00:00Z" "prop_9")]
          "api" (fun _ => some 100) 150
        = some (J.str "RFC-007", "2026-01-01T00:00:00Z", "api")) ∧
    (("billing" : String) ≠ "api" →
      check_rfc_scope_pause [queued_proposal "prop_9" "feature/y" "api"]
          [("rfc_007.json", rfc_deadline "RFC-007" "2026-01-01T00:00:00Z" "prop_9")]
          "billing" (fun _ => some 100) 150 = none) ∧
    ((150 : Int) < 100 →
      check_rfc_scope_pause [queued_proposal "prop_9" "feature/y" "api"]
          [("rfc_007.json", rfc_deadline "RFC-007" "2026-01-01T00:00:00Z" "prop_9")]
          "api" (fun _ => some 100) 150 = none) ∧
    (check_rfc_scope_pause [queued_proposal "prop_9" "feature/y" "api"]
        [("rfc_007.json", rfc_no_deadline "RFC-007" "prop_9")]
        "api" (fun _ => some 100) 150 = none) ∧
    (check_rfc_scope_pause []
        [("rfc_007.json", rfc_deadline "RFC-007" "2026-01-01T00:00:00Z" "prop_9")]
        "api" (fun _ => some 100) 150 = none) :=
  ⟨by decide, by decide, rfl,
   (scope_pause_gate_scenario "RFC-007" "2026-01-01T00:00:00Z" "prop_9" "feature/y"
     "api" "billing" "rfc_007.json" (fun _ => some 100) 150 100
     (by decide) (by decide) rfl).1,
   (scope_pause_gate_scenario "RFC-007" "2026-01-01T00:00:00Z" "prop_9" "feature/y"
     "api" "billing" "rfc_007.json" (fun _ => some 100) 150 100
     (by decide) (by decide) rfl).2.1,
   (scope_pause_gate_scenario "RFC-007" "2026-01-01T00:00:00Z" "prop_9" "feature/y"
     "api" "billing" "rfc_007.json" (fun _ => some 100) 150 100
     (by decide) (by decide) rfl).2.2.1,
   (scope_pause_gate_scenario "RFC-007" "2026-01-01T00:00:00Z" "prop_9" "feature/y"
     "api" "billing" "rfc_007.json" (fun _ => some 100) 150 100
     (by decide) (by decide) rfl).2.2.2.1,
   (scope_pause_gate_scenario "RFC-007" "2026-01-01T00:00:00Z" "prop_9" "feature/y"
     "api" "billing" "rfc_007.json" (fun _ => some 100) 150 100
     (by decide) (by decide) rfl).2.2.2.2⟩
